import Mathlib

/-!
Verification of the request/response pipeline of a Go REST API client
(`client.go` / `tags.go` and the pipeline functions `Do`, `CheckResponse`,
`parseRate`, `checkRateLimitBeforeDo` given in the repository's README).

Shallow embedding conventions:
* Go `time.Time` values that only ever originate from `time.Unix(v, 0)`
  (or stay at the zero value) are modelled as `Option Int`: `none` is the
  zero value (`IsZero`), `some v` is the Unix-second instant `v`.
  `time.Now()` is passed in explicitly as an `Int` of Unix seconds;
  `now.Before(some v)` is `now < v`, and `now.Before(none)` is `false`
  because the zero instant (year 1) precedes any actual clock reading.
* Go machine `int`/`int64` header values are modelled as unbounded `Int`
  (the code only stores parsed header numbers and compares them with 0).
* `http.Header.Get` returning the empty string for an absent header is
  modelled by `Option String` fields read through `headerVal`.
* An `http.Response.Body` stream is modelled by `Body`: either readable
  bytes (`content`) or a reader whose `ReadAll` fails (`unreadable`).
* `json.Unmarshal` into the error structure is modelled by an executable
  parser `jsonUnmarshal` for JSON objects whose fields are string
  literals (plus the top-level `null` document); any other document is a
  parse failure, matching the code path where `json.Unmarshal` errors.
-/

/-- Models `http.Header` restricted to the three rate headers the code
reads (`RateLimit-Limit`, `RateLimit-Remaining`, `RateLimit-Reset`);
`none` is an absent header. -/
structure Headers where
  rateLimit : Option String
  rateRemaining : Option String
  rateReset : Option String
deriving DecidableEq

/-- Models `http.Header.Get`: the header value, or the empty string when
the header is absent. -/
def headerVal (h : Option String) : String := h.getD ("")

/-- The `Rate` structure of `client.go`: limit, remaining and the reset
instant (`Timestamp`, i.e. a Go `time.Time`, modelled as `Option Int`). -/
structure Rate where
  limit : Int
  remaining : Int
  reset : Option Int
deriving DecidableEq

/-- The zero value of `Rate`: all fields zero, reset at the zero time. -/
def Rate.zero : Rate := { limit := 0, remaining := 0, reset := none }

/-- Models `now.Before(reset)` for a reset time that is either the Go
zero value (`none`, never after the current clock) or `time.Unix v`. -/
def tsBefore (now : Int) (ts : Option Int) : Bool :=
  match ts with
  | none => false
  | some v => decide (now < v)

/-- An outbound `http.Request` as built by `NewRequest`: method, resolved
URL, the three headers the code sets, and the serialized body buffer. -/
structure GoRequest where
  method : String
  url : String
  contentType : Option String
  accept : Option String
  userAgent : Option String
  body : Option String
deriving DecidableEq

/-- An `http.Response.Body` stream: readable bytes or a failing reader. -/
inductive Body
  | unreadable
  | content (data : String)
deriving DecidableEq

/-- Models `ioutil.ReadAll(r.Body)`: an error flag and the bytes read
(empty on failure). -/
def readAll : Body → Bool × String
  | Body.unreadable => (true, (""))
  | Body.content s => (false, s)

/-- The bytes obtained by draining a body (second component of
`ReadAll`). -/
def drainData (b : Body) : String := (readAll b).2

/-- An `http.Response` as far as the pipeline inspects it: status code,
rate headers, body stream, and the request that produced it. -/
structure HttpResponse where
  status : Nat
  headers : Headers
  body : Body
  request : Option GoRequest
deriving DecidableEq

/-- Models `strconv.Atoi` / `strconv.ParseInt(s, 10, 64)`: an optional
sign followed by at least one digit; `none` on any malformed input.
(Go's overflow failure is not modelled: the `Int` result is unbounded.) -/
def digitsVal (cs : List Char) : Nat :=
  cs.foldl (fun a c => a * 10 + (c.toNat - 48)) 0

def atoi? (s : String) : Option Int :=
  match s.toList with
  | [] => none
  | c :: t =>
    if c = '+' then
      if t ≠ [] ∧ t.all Char.isDigit then some (Int.ofNat (digitsVal t)) else none
    else if c = '-' then
      if t ≠ [] ∧ t.all Char.isDigit then some (-(Int.ofNat (digitsVal t))) else none
    else if (c :: t).all Char.isDigit then some (Int.ofNat (digitsVal (c :: t))) else none

/-- The `parseRate` function: builds a `Rate` from the three rate
headers of a response.  Each numeric field is assigned the `Atoi` result
(0 when `Atoi` fails, since the code ignores the error and keeps the
returned zero) when the header is present, and stays at the zero value
when absent.  `Reset` is set only when the header is present and parses
to a non-zero integer, exactly as the `if v != 0` guard does. -/
def parseRateHeaders (h : Headers) : Rate :=
  let limitS := headerVal h.rateLimit
  let remS := headerVal h.rateRemaining
  let resetS := headerVal h.rateReset
  { limit := if limitS ≠ ("") then (atoi? limitS).getD 0 else 0
    remaining := if remS ≠ ("") then (atoi? remS).getD 0 else 0
    reset :=
      if resetS ≠ ("") then
        match atoi? resetS with
        | some v => if v ≠ 0 then some v else none
        | none => none
      else none }

/-- The `Response` wrapper produced by `newResponse`: the raw response
plus the `Rate` parsed from its headers. -/
structure ResponseEnvelope where
  raw : HttpResponse
  rate : Rate
deriving DecidableEq

def newResponse (r : HttpResponse) : ResponseEnvelope :=
  { raw := r, rate := parseRateHeaders r.headers }

/-- The `RateLimitError` structure: last known rate, the response that
caused the error, and a message. -/
structure RateLimitError where
  rate : Rate
  response : HttpResponse
  message : String
deriving DecidableEq

/-- The classified error outcomes `CheckResponse` can produce: the
custom `RateLimitError`, or the generic `ErrorResponse` (response plus
parsed message). -/
inductive ClientError
  | rateLimit (e : RateLimitError)
  | errorResponse (response : HttpResponse) (message : String)
deriving DecidableEq

def emptyHeaders : Headers :=
  { rateLimit := none, rateRemaining := none, rateReset := none }

/-- The fake response synthesized by `checkRateLimitBeforeDo`:
`StatusCode: http.StatusForbidden` (403), fresh empty headers, an empty
body, and the outbound request attached. -/
def fakeForbiddenResponse (req : GoRequest) : HttpResponse :=
  { status := 403, headers := emptyHeaders, body := Body.content (""), request := some req }

/-- Rendering of a reset instant inside the throttling message (models
the `%v` formatting of the `time.Time`). -/
def tsString (ts : Option Int) : String :=
  match ts with
  | none => "0001-01-01 00:00:00 +0000 UTC"
  | some v => toString v

/-- The `fmt.Sprintf` message of the locally synthesized rate-limit
error. -/
def rateLimitMessage (rate : Rate) : String :=
  "API rate limit of " ++ toString rate.limit ++ " still exceeded until "
    ++ tsString rate.reset ++ ", not making remote request."

/-- The `checkRateLimitBeforeDo` method: under the rate mutex, snapshot
the cached `Rate`; when the reset time is set, `Remaining` is zero and
the current time is before the reset time, synthesize a 403 response and
a `RateLimitError` from the cached rate, else return nil. -/
def checkRateLimitBeforeDo (rate : Rate) (now : Int) (req : GoRequest) :
    Option RateLimitError :=
  if rate.reset ≠ none ∧ rate.remaining = 0 ∧ tsBefore now rate.reset = true then
    some { rate := rate, response := fakeForbiddenResponse req, message := rateLimitMessage rate }
  else none

/- A small executable model of `json.Unmarshal` into the error
structure: accepts a JSON object all of whose field values are string
literals without escapes (and the `null` document), yielding the field
list; everything else is an unmarshal error. -/

def chQuote : Char := Char.ofNat 34
def chBackslash : Char := Char.ofNat 92
def chLBrace : Char := Char.ofNat 123
def chRBrace : Char := Char.ofNat 125

def isWsChar (c : Char) : Bool :=
  c.toNat = 32 || c.toNat = 9 || c.toNat = 10 || c.toNat = 13

def skipWs : List Char → List Char
  | [] => []
  | c :: t => if isWsChar c then skipWs t else c :: t

def parseStrAux : List Char → List Char → Option (String × List Char)
  | [], _ => none
  | c :: t, acc =>
    if c = chQuote then some (String.mk acc.reverse, t)
    else if c = chBackslash then none
    else parseStrAux t (c :: acc)

def parseStringLit (cs : List Char) : Option (String × List Char) :=
  match cs with
  | c :: t => if c = chQuote then parseStrAux t [] else none
  | [] => none

def parsePair (cs : List Char) : Option ((String × String) × List Char) :=
  match parseStringLit (skipWs cs) with
  | none => none
  | some (k, rest) =>
    match skipWs rest with
    | c :: rest2 =>
      if c = ':' then
        match parseStringLit (skipWs rest2) with
        | none => none
        | some (v, rest3) => some ((k, v), rest3)
      else none
    | [] => none

def parsePairsAux :
    Nat → List Char → List (String × String) →
    Option (List (String × String) × List Char)
  | 0, _, _ => none
  | Nat.succ fuel, cs, acc =>
    match parsePair cs with
    | none => none
    | some (kv, rest) =>
      match skipWs rest with
      | c :: rest2 =>
        if c = ',' then parsePairsAux fuel rest2 (kv :: acc)
        else some ((kv :: acc).reverse, c :: rest2)
      | [] => some ((kv :: acc).reverse, [])

def isNullLit (cs : List Char) : Bool :=
  match cs with
  | 'n' :: 'u' :: 'l' :: 'l' :: rest => (skipWs rest).isEmpty
  | _ => false

def jsonUnmarshal (s : String) : Option (List (String × String)) :=
  let cs := skipWs s.toList
  match cs with
  | c :: t =>
    if c = chLBrace then
      match skipWs t with
      | d :: t2 =>
        if d = chRBrace then (if (skipWs t2).isEmpty then some [] else none)
        else
          match parsePairsAux (t.length + 1) (d :: t2) [] with
          | none => none
          | some (fields, rest) =>
            match skipWs rest with
            | e :: t3 =>
              if e = chRBrace then (if (skipWs t3).isEmpty then some fields else none)
              else none
            | [] => none
      | [] => none
    else if isNullLit cs then some [] else none
  | [] => none

/-- The message field `json.Unmarshal` leaves in the error structure:
the last occurrence of the `message` key wins, absent key leaves the
zero value (the empty string). -/
def lastMessageField (fields : List (String × String)) : String :=
  match fields.reverse.lookup ("message") with
  | some v => v
  | none => ("")

/-- The message computed from non-empty body bytes: the unmarshalled
`message` field when the bytes unmarshal, otherwise the raw bytes
(`errorResponse.Message = string(data)` on unmarshal error). -/
def parseMessage (data : String) : String :=
  match jsonUnmarshal data with
  | some fields => lastMessageField fields
  | none => data

/-- The message `CheckResponse` ends up with for a given body stream:
empty for an unreadable or empty body, otherwise `parseMessage` of the
bytes. -/
def classifierMessage (b : Body) : String :=
  match b with
  | Body.unreadable => ("")
  | Body.content s => if s ≠ ("") then parseMessage s else ("")

/-- The `CheckResponse` function, assembled from the two README stages
of the same function (the base version plus the custom-error switch):
2xx returns nil without touching the body; otherwise the body is fully
read, the message extracted (unmarshal the bytes, falling back to the
raw bytes, staying empty for an empty or unreadable body), the body
re-populated with the buffered bytes, and the switch returns
`RateLimitError` for 403 with a `RateLimit-Remaining: 0` header and the
generic `ErrorResponse` otherwise.  Returns the classification together
with the response whose body stream was consumed and re-buffered. -/
def checkResponse (r : HttpResponse) : Option ClientError × HttpResponse :=
  if 200 ≤ r.status ∧ r.status ≤ 299 then (none, r)
  else
    let rd := readAll r.body
    let message := if rd.1 = false ∧ rd.2 ≠ ("") then parseMessage rd.2 else ("")
    let r2 := { r with body := Body.content rd.2 }
    if r.status = 403 ∧ headerVal r.headers.rateRemaining = ("0") then
      (some (ClientError.rateLimit
        { rate := parseRateHeaders r.headers, response := r2, message := message }), r2)
    else
      (some (ClientError.errorResponse r2 message), r2)

/-- The observable outcome of one `Do` call: whether the transport was
contacted, the client's cached `Rate` after the call (`c.Rate`), the
returned `Response` wrapper, and the returned error. -/
structure DoResult where
  contactedTransport : Bool
  clientRate : Rate
  envelope : ResponseEnvelope
  error : Option ClientError
deriving DecidableEq

/-- The `Do` method of the client.  `cached` is the client's `Rate`
before the call, `now` the current clock, `transportResp` the response
the transport would deliver (the code ignores transport errors: `resp :=
client.Do(req)`).  First the rate-limit guard runs; when it fires, `Do`
returns a `Response` built from the synthesized 403 response and the
cached rate together with the `RateLimitError`, without contacting the
transport and leaving the cached rate unchanged.  Otherwise the request
is sent, the response wrapped (`newResponse`), the client's cached rate
overwritten with the parsed rate under the mutex, and `CheckResponse`
classifies the response; its result is returned with the wrapper. -/
def Do (cached : Rate) (now : Int) (req : GoRequest) (transportResp : HttpResponse) :
    DoResult :=
  match checkRateLimitBeforeDo cached now req with
  | some e =>
      { contactedTransport := false
        clientRate := cached
        envelope := { raw := e.response, rate := e.rate }
        error := some (ClientError.rateLimit e) }
  | none =>
      let response := newResponse transportResp
      let checked := checkResponse transportResp
      { contactedTransport := true
        clientRate := response.rate
        envelope := { raw := checked.2, rate := response.rate }
        error := checked.1 }

/- Request construction (`NewRequest` in `client.go`). -/

/-- The request-build failure modes: `BaseURL.Parse` failing, the JSON
encoder failing on the body, and the nil-pointer panic of
`req.Header.Set` when the method falls into the empty `default:` branch
of the switch and `req` is never assigned. -/
inductive ReqError
  | malformedURL
  | encodingError
  | nilRequestPanic
deriving DecidableEq

/-- A Go value passed as the `body interface` argument: either a value
the JSON encoder serializes to `wire`, or one it rejects (a channel,
function value, cyclic structure, ...). -/
inductive BodyValue
  | encodable (wire : String)
  | unencodable
deriving DecidableEq

def mediaType : String := "application/json"

def libraryVersion : String := "1.60.0"

def defaultBaseURL : String := "https://api.digitalocean.com/"

def userAgentDefault : String := "godo/" ++ libraryVersion

/-- The fields of `Client` that request construction reads (`BaseURL`,
`UserAgent`). -/
structure ClientModel where
  baseURL : String
  userAgent : String
deriving DecidableEq

/-- The client produced by `NewClient`. -/
def defaultClient : ClientModel :=
  { baseURL := defaultBaseURL, userAgent := userAgentDefault }

/-- Abstract model of `c.BaseURL.Parse(urlStr)`: resolution succeeds,
appending the reference to the base, exactly when the path is free of
control and non-ASCII characters (the inputs `url.Parse` rejects). -/
def validURLPath (s : String) : Bool :=
  s.toList.all (fun c => decide (32 ≤ c.toNat ∧ c.toNat ≤ 126))

def urlResolve (base path : String) : Option String :=
  if validURLPath path = true then some (base ++ path) else none

/-- The `NewRequest` method: resolve the path against the base URL; for
GET/HEAD/OPTIONS build a body-less request; for POST encode the body
(when non-nil) into the buffer and set `Content-Type`; any other method
falls into the empty `default:` branch leaving `req` nil.  Afterwards
the code unconditionally runs `req.Header.Set` for `Accept` and
`User-Agent`, which dereferences nil — modelled as the
`nilRequestPanic` outcome — and returns the request. -/
def NewRequest (c : ClientModel) (method urlStr : String) (body : Option BodyValue) :
    Except ReqError GoRequest :=
  match urlResolve c.baseURL urlStr with
  | none => Except.error ReqError.malformedURL
  | some u =>
    let stage : Except ReqError (Option GoRequest) :=
      if method = ("GET") ∨ method = ("HEAD") ∨ method = ("OPTIONS") then
        Except.ok (some
          { method := method, url := u, contentType := none
            accept := none, userAgent := none, body := none })
      else if method = ("POST") then
        match body with
        | some BodyValue.unencodable => Except.error ReqError.encodingError
        | some (BodyValue.encodable wire) =>
            Except.ok (some
              { method := method, url := u, contentType := some mediaType
                accept := none, userAgent := none, body := some wire })
        | none =>
            Except.ok (some
              { method := method, url := u, contentType := some mediaType
                accept := none, userAgent := none, body := some ("") })
      else
        Except.ok none
    match stage with
    | Except.error e => Except.error e
    | Except.ok none => Except.error ReqError.nilRequestPanic
    | Except.ok (some r) =>
        Except.ok { r with accept := some mediaType, userAgent := some c.userAgent }

/- The tags service (`tags.go`). -/

structure Resource where
  id : String
  rtype : String
deriving DecidableEq

structure Tag where
  name : String
  resources : List Resource
deriving DecidableEq

def tagsBasePath : String := "v2/tags"

/-- The `ListOptions` structure (`page`, `per_page`). -/
structure ListOptions where
  page : Int
  perPage : Int
deriving DecidableEq

/-- A Go `error` as the service functions return it: a request-build
failure, a pipeline/classification failure, or an options-encoding
failure. -/
inductive GoError
  | reqError (e : ReqError)
  | clientError (e : ClientError)
  | optionsError (msg : String)
deriving DecidableEq

/-- Modelled from the spec: `addOptions`, called by
`TagsServiceOp.List`, is not defined anywhere in the repository.  Per
the spec's external-interface section, the options structure's `page`
and `per_page` fields are serialized as query parameters when present
and non-zero and omitted entirely when zero; nothing there makes this
encoding fail for these options. -/
def addOptions (path : String) (opt : Option ListOptions) : Except String String :=
  match opt with
  | none => Except.ok path
  | some o =>
    let p1 := if o.page ≠ 0 then ["page=" ++ toString o.page] else []
    let p2 := if o.perPage ≠ 0 then ["per_page=" ++ toString o.perPage] else []
    match p1 ++ p2 with
    | [] => Except.ok path
    | qs => Except.ok (path ++ "?" ++ String.intercalate "&" qs)

/-- Result of `TagsServiceOp.Get` / `Create`: the tag, the response
wrapper, the error, plus whether the transport was contacted. -/
structure TagCallResult where
  tag : Option Tag
  envelope : Option ResponseEnvelope
  error : Option GoError
  contactedTransport : Bool
deriving DecidableEq

/-- Result of `TagsServiceOp.Delete`. -/
structure DeleteCallResult where
  envelope : Option ResponseEnvelope
  error : Option GoError
  contactedTransport : Bool
deriving DecidableEq

/-- Result of `TagsServiceOp.List`. -/
structure ListCallResult where
  tags : Option (List Tag)
  envelope : Option ResponseEnvelope
  error : Option GoError
  contactedTransport : Bool
deriving DecidableEq

/-- `TagsServiceOp.Get` as implemented: `return nil, nil, nil`. -/
def TagsServiceOp.Get (_name : String) : TagCallResult :=
  { tag := none, envelope := none, error := none, contactedTransport := false }

/-- `TagsServiceOp.Create` as implemented: `return nil, nil, nil`. -/
def TagsServiceOp.Create (_s : String) : TagCallResult :=
  { tag := none, envelope := none, error := none, contactedTransport := false }

/-- `TagsServiceOp.Delete` as implemented: `return nil, nil`. -/
def TagsServiceOp.Delete (_s : String) : DeleteCallResult :=
  { envelope := none, error := none, contactedTransport := false }

/-- `TagsServiceOp.List`: encode the options onto `tagsBasePath`, build
a GET request with `NewRequest`, run it through `Do`, and return
`root.Tags` (never populated, since the README's `Do` does not decode
the body into `v`: the nil slice is modelled as `none`) together with
the wrapper and error.  Each early return carries `contactedTransport :=
false` because `Do` was never reached. -/
def TagsServiceOp.List (c : ClientModel) (cached : Rate) (now : Int)
    (opt : Option ListOptions) (transportResp : HttpResponse) : ListCallResult :=
  match addOptions tagsBasePath opt with
  | Except.error msg =>
      { tags := none, envelope := none
        error := some (GoError.optionsError msg), contactedTransport := false }
  | Except.ok path =>
    match NewRequest c ("GET") path none with
    | Except.error e =>
        { tags := none, envelope := none
          error := some (GoError.reqError e), contactedTransport := false }
    | Except.ok req =>
      let r := Do cached now req transportResp
      match r.error with
      | some e =>
          { tags := none, envelope := some r.envelope
            error := some (GoError.clientError e)
            contactedTransport := r.contactedTransport }
      | none =>
          { tags := none, envelope := some r.envelope, error := none
            contactedTransport := r.contactedTransport }

/- Theorems. -/

/-- Claim C1.  Whenever the cached `RateState` has `remaining = 0` and
the current time is strictly before the reset instant, `Do` does not
contact the transport: it returns a `RateLimitError` built from the
cached rate together with a synthesized response whose status is 403,
and the returned wrapper carries that synthesized response and the
cached rate. -/
theorem do_shortCircuits_when_throttled (cached : Rate) (now : Int)
    (req : GoRequest) (tresp : HttpResponse)
    (hrem : cached.remaining = 0) (hbefore : tsBefore now cached.reset = true) :
    (Do cached now req tresp).contactedTransport = false ∧
    (Do cached now req tresp).error = some (ClientError.rateLimit
      { rate := cached, response := fakeForbiddenResponse req
        message := rateLimitMessage cached }) ∧
    (fakeForbiddenResponse req).status = 403 ∧
    (Do cached now req tresp).envelope =
      { raw := fakeForbiddenResponse req, rate := cached } := by
  have hne : cached.reset ≠ none := by
    cases h : cached.reset with
    | none => rw [h] at hbefore; simp [tsBefore] at hbefore
    | some v => simp
  have hguard : checkRateLimitBeforeDo cached now req = some
      { rate := cached, response := fakeForbiddenResponse req
        message := rateLimitMessage cached } := by
    unfold checkRateLimitBeforeDo
    rw [if_pos ⟨hne, hrem, hbefore⟩]
  refine ⟨?_, ?_, rfl, ?_⟩ <;> simp [Do, hguard]

theorem do_shortCircuits_when_throttled_witness :
    (Do { limit := 100, remaining := 0, reset := some 1000 } 500
        { method := ("GET"), url := ("u"), contentType := none
          accept := some mediaType, userAgent := some userAgentDefault, body := none }
        { status := 200, headers := emptyHeaders, body := Body.content (""), request := none }
      ).contactedTransport = false ∧
    (Do { limit := 100, remaining := 0, reset := some 1000 } 500
        { method := ("GET"), url := ("u"), contentType := none
          accept := some mediaType, userAgent := some userAgentDefault, body := none }
        { status := 200, headers := emptyHeaders, body := Body.content (""), request := none }
      ).error = some (ClientError.rateLimit
        { rate := { limit := 100, remaining := 0, reset := some 1000 }
          response := fakeForbiddenResponse
            { method := ("GET"), url := ("u"), contentType := none
              accept := some mediaType, userAgent := some userAgentDefault, body := none }
          message := rateLimitMessage { limit := 100, remaining := 0, reset := some 1000 } }) ∧
    (fakeForbiddenResponse
        { method := ("GET"), url := ("u"), contentType := none
          accept := some mediaType, userAgent := some userAgentDefault, body := none }
      ).status = 403 ∧
    (Do { limit := 100, remaining := 0, reset := some 1000 } 500
        { method := ("GET"), url := ("u"), contentType := none
          accept := some mediaType, userAgent := some userAgentDefault, body := none }
        { status := 200, headers := emptyHeaders, body := Body.content (""), request := none }
      ).envelope =
      { raw := fakeForbiddenResponse
          { method := ("GET"), url := ("u"), contentType := none
            accept := some mediaType, userAgent := some userAgentDefault, body := none }
        rate := { limit := 100, remaining := 0, reset := some 1000 } } :=
  do_shortCircuits_when_throttled
    { limit := 100, remaining := 0, reset := some 1000 } 500
    { method := ("GET"), url := ("u"), contentType := none
      accept := some mediaType, userAgent := some userAgentDefault, body := none }
    { status := 200, headers := emptyHeaders, body := Body.content (""), request := none }
    (by decide) (by decide)

/-- Claim C7.  A zero-value `RateState` (limit and remaining zero, reset
unset) never fires the client-side throttling guard: `Do` always sends
the request to the transport. -/
theorem do_zeroRate_no_throttle (now : Int) (req : GoRequest) (tresp : HttpResponse) :
    checkRateLimitBeforeDo Rate.zero now req = none ∧
    (Do Rate.zero now req tresp).contactedTransport = true := by
  have h : checkRateLimitBeforeDo Rate.zero now req = none := by
    unfold checkRateLimitBeforeDo
    rw [if_neg]
    rintro ⟨h1, -⟩
    exact h1 rfl
  exact ⟨h, by simp [Do, h]⟩

/-- Claim C4 (failing-input evaluation).  For the method DELETE — which
falls into the empty `default:` branch of the switch in `NewRequest` —
the request variable is never assigned, and the unconditional
`req.Header.Set` calls dereference a nil request: `NewRequest` does not
produce a request carrying the Accept and User-Agent headers but
crashes. -/
theorem newRequest_delete_panics :
    NewRequest defaultClient ("DELETE") tagsBasePath none =
      Except.error ReqError.nilRequestPanic := by
  rfl

/-- Claim C5 (counterexample).  A concrete response with status 202 is
classified as no error at all by `CheckResponse` — the 2xx early return
covers 202 — so no distinct accepted outcome is surfaced, contradicting
the claim that 202 yields an `AcceptedError`.  (No accepted variant
exists anywhere in the code.) -/
theorem checkResponse_202_counterexample :
    ({ status := 202, headers := emptyHeaders, body := Body.content ("")
       request := none } : HttpResponse).status = 202 ∧
    (checkResponse
      { status := 202, headers := emptyHeaders, body := Body.content ("")
        request := none }).1 = none := by
  decide

/-- Claim C5 (amended).  Every response with status exactly 202 is
classified by `CheckResponse` as success (nil error), exactly like any
other 2xx status; no distinct `AcceptedError` outcome is produced. -/
theorem checkResponse_202_noError (r : HttpResponse) (h : r.status = 202) :
    (checkResponse r).1 = none := by
  unfold checkResponse
  rw [if_pos (by rw [h]; exact ⟨by norm_num, by norm_num⟩)]

theorem checkResponse_202_noError_witness :
    (checkResponse
      { status := 202
        headers := { rateLimit := some ("60"), rateRemaining := some ("1"), rateReset := none }
        body := Body.content ("queued"), request := none }).1 = none :=
  checkResponse_202_noError
    { status := 202
      headers := { rateLimit := some ("60"), rateRemaining := some ("1"), rateReset := none }
      body := Body.content ("queued"), request := none } rfl

/-- Helper: the message expression inside `checkResponse` agrees with
`classifierMessage` of the body stream. -/
theorem message_expr_eq_classifier (b : Body) :
    (if (readAll b).1 = false ∧ (readAll b).2 ≠ ("") then parseMessage (readAll b).2 else ("")) =
      classifierMessage b := by
  cases b <;> simp [readAll, classifierMessage]

/-- Claim C2.  Every completed response with status 403 whose
`RateLimit-Remaining` header reads as the string 0 is classified as a
`RateLimitError` — no other variant — carrying the `Rate` parsed from
this response's headers, the original response (with its body
re-buffered after the read), and the message extracted from the body. -/
theorem checkResponse_rateLimit_variant (r : HttpResponse)
    (hs : r.status = 403) (hh : headerVal r.headers.rateRemaining = ("0")) :
    (checkResponse r).1 = some (ClientError.rateLimit
      { rate := parseRateHeaders r.headers
        response := { r with body := Body.content (drainData r.body) }
        message := classifierMessage r.body }) := by
  have h2xx : ¬(200 ≤ r.status ∧ r.status ≤ 299) := by
    rw [hs]; rintro ⟨-, h⟩; norm_num at h
  cases hb : r.body with
  | unreadable =>
      simp [checkResponse, h2xx, hs, hh, hb, readAll, drainData, classifierMessage]
  | content s =>
      by_cases hse : s = ("")
      · subst hse
        simp [checkResponse, h2xx, hs, hh, hb, readAll, drainData, classifierMessage]
      · simp [checkResponse, h2xx, hs, hh, hb, readAll, drainData, classifierMessage, hse]

def c2resp : HttpResponse :=
  { status := 403
    headers := { rateLimit := some ("5000"), rateRemaining := some ("0")
                 rateReset := some ("1700000000") }
    body := Body.content ("near limit"), request := none }

theorem checkResponse_rateLimit_variant_witness :
    (checkResponse c2resp).1 = some (ClientError.rateLimit
      { rate := parseRateHeaders c2resp.headers
        response := { c2resp with body := Body.content (drainData c2resp.body) }
        message := classifierMessage c2resp.body }) :=
  checkResponse_rateLimit_variant c2resp rfl rfl

/-- Claim C6.  Every completed response with status outside 200..299
that does not match the rate-limit case is classified — classification
itself never fails, even for an empty or unreadable body — as the
generic `ErrorResponse`, whose message is: the `message` field when the
body unmarshals as the expected error shape; the raw body text when the
body is non-empty but does not unmarshal; and empty when the body is
empty or unreadable. -/
theorem checkResponse_generic_default (r : HttpResponse)
    (hs : r.status < 200 ∨ 299 < r.status)
    (hn : ¬(r.status = 403 ∧ headerVal r.headers.rateRemaining = ("0"))) :
    (checkResponse r).1 = some (ClientError.errorResponse
      { r with body := Body.content (drainData r.body) } (classifierMessage r.body)) ∧
    (∀ s fields, r.body = Body.content s → jsonUnmarshal s = some fields →
      classifierMessage r.body = lastMessageField fields) ∧
    (∀ s, r.body = Body.content s → jsonUnmarshal s = none → s ≠ ("") →
      classifierMessage r.body = s) ∧
    (r.body = Body.unreadable ∨ r.body = Body.content ("") →
      classifierMessage r.body = ("")) := by
  have h2xx : ¬(200 ≤ r.status ∧ r.status ≤ 299) := by
    rintro ⟨h1, h2⟩
    rcases hs with h | h <;> omega
  refine ⟨?_, ?_, ?_, ?_⟩
  · cases hb : r.body with
    | unreadable =>
        simp [checkResponse, h2xx, hn, hb, readAll, drainData, classifierMessage]
    | content s =>
        by_cases hse : s = ("")
        · subst hse
          simp [checkResponse, h2xx, hn, hb, readAll, drainData, classifierMessage]
        · simp [checkResponse, h2xx, hn, hb, readAll, drainData, classifierMessage, hse]
  · intro s fields hb hj
    have hse : s ≠ ("") := by
      intro he
      rw [he] at hj
      have h0 : jsonUnmarshal ("") = none := rfl
      rw [h0] at hj
      exact Option.noConfusion hj
    rw [hb]
    simp [classifierMessage, hse, parseMessage, hj]
  · intro s hb hj hse
    rw [hb]
    simp [classifierMessage, hse, parseMessage, hj]
  · rintro (hb | hb) <;> rw [hb] <;> simp [classifierMessage]

def c6resp : HttpResponse :=
  { status := 500, headers := emptyHeaders, body := Body.content ("oops"), request := none }

theorem checkResponse_generic_default_witness :
    (checkResponse c6resp).1 = some (ClientError.errorResponse
      { c6resp with body := Body.content (drainData c6resp.body) }
      (classifierMessage c6resp.body)) :=
  (checkResponse_generic_default c6resp (Or.inr (by decide)) (by decide)).1

/-- Claim C9.  The classifier is idempotent: running `CheckResponse` a
second time over the response it handed back — same status, same
headers, and the same body bytes, which the classifier re-buffered into
the body after reading them — yields the same classification (hence the
same variant and message) and the same response. -/
theorem checkResponse_idempotent (r : HttpResponse) :
    (checkResponse (checkResponse r).2).1 = (checkResponse r).1 ∧
    (checkResponse (checkResponse r).2).2 = (checkResponse r).2 := by
  by_cases h : 200 ≤ r.status ∧ r.status ≤ 299
  · constructor <;> simp [checkResponse, h]
  · by_cases hc : r.status = 403 ∧ headerVal r.headers.rateRemaining = ("0")
    · cases hb : r.body <;> constructor <;>
        simp [checkResponse, h, hc, hb, readAll]
    · cases hb : r.body <;> constructor <;>
        simp [checkResponse, h, hc, hb, readAll]

/-- Claim C3 (counterexample).  With a cached rate of `remaining = 5`
and a transport response carrying no `RateLimit-Remaining` header, the
pipeline contacts the transport and then overwrites the client's cached
rate with the freshly parsed one, whose `remaining` is the zero value:
the cached `remaining` afterwards is 0, not the previously cached 5,
refuting the claim that an absent header leaves the cached value in
place. -/
theorem do_overwrites_cached_remaining_counterexample :
    ({ limit := 10, remaining := 5, reset := none } : Rate).remaining = 5 ∧
    (Do { limit := 10, remaining := 5, reset := none } 0
        { method := ("GET"), url := ("u"), contentType := none
          accept := some mediaType, userAgent := some userAgentDefault, body := none }
        { status := 200, headers := emptyHeaders, body := Body.content ("")
          request := none }).contactedTransport = true ∧
    (Do { limit := 10, remaining := 5, reset := none } 0
        { method := ("GET"), url := ("u"), contentType := none
          accept := some mediaType, userAgent := some userAgentDefault, body := none }
        { status := 200, headers := emptyHeaders, body := Body.content ("")
          request := none }).clientRate.remaining = 0 := by
  decide

/-- Claim C3 (amended).  For every response actually processed by the
pipeline (the rate-limit guard did not fire), if the
`RateLimit-Remaining` header is present and parses as an integer, the
client's cached `remaining` afterwards equals that integer; if the
header is absent, the freshly parsed rate leaves the field at its zero
value and the client's cache is overwritten with it, so the cached
`remaining` afterwards is 0 regardless of what was cached before. -/
theorem do_remaining_update (cached : Rate) (now : Int) (req : GoRequest)
    (tresp : HttpResponse)
    (hpass : checkRateLimitBeforeDo cached now req = none) :
    (∀ s n, tresp.headers.rateRemaining = some s → atoi? s = some n →
      (Do cached now req tresp).clientRate.remaining = n) ∧
    (tresp.headers.rateRemaining = none →
      (Do cached now req tresp).clientRate.remaining = 0) := by
  constructor
  · intro s n hh hp
    have hse : s ≠ ("") := by
      intro he
      rw [he] at hp
      have h0 : atoi? ("") = none := rfl
      rw [h0] at hp
      exact Option.noConfusion hp
    simp [Do, hpass, newResponse, parseRateHeaders, headerVal, hh, hse, hp]
  · intro hh
    simp [Do, hpass, newResponse, parseRateHeaders, headerVal, hh]

theorem do_remaining_update_witness :
    checkRateLimitBeforeDo Rate.zero 0
      { method := ("GET"), url := ("u"), contentType := none
        accept := some mediaType, userAgent := some userAgentDefault, body := none } = none ∧
    (Do Rate.zero 0
      { method := ("GET"), url := ("u"), contentType := none
        accept := some mediaType, userAgent := some userAgentDefault, body := none }
      { status := 200
        headers := { rateLimit := some ("60"), rateRemaining := some ("7")
                     rateReset := some ("999") }
        body := Body.content (""), request := none }).clientRate.remaining = 7 :=
  ⟨by decide,
   (do_remaining_update Rate.zero 0
      { method := ("GET"), url := ("u"), contentType := none
        accept := some mediaType, userAgent := some userAgentDefault, body := none }
      { status := 200
        headers := { rateLimit := some ("60"), rateRemaining := some ("7")
                     rateReset := some ("999") }
        body := Body.content (""), request := none }
      (by decide)).1 ("7") 7 rfl (by decide)⟩

/-- Claim C8.  For the body-less methods GET, HEAD and OPTIONS,
`NewRequest` builds a request with no body and no `Content-Type` — no
serialization is attempted even when a body value (possibly one the
encoder would reject) is supplied — and for POST with a non-nil
encodable body the serialized bytes become the request body and
`Content-Type` is set to the JSON media type; both carry `Accept` and
`User-Agent`. -/
theorem newRequest_body_policy (c : ClientModel) (m u res : String)
    (b : Option BodyValue) (hres : urlResolve c.baseURL u = some res) :
    ((m = ("GET") ∨ m = ("HEAD") ∨ m = ("OPTIONS")) →
      NewRequest c m u b = Except.ok
        { method := m, url := res, contentType := none
          accept := some mediaType, userAgent := some c.userAgent, body := none }) ∧
    (∀ w, m = ("POST") → b = some (BodyValue.encodable w) →
      NewRequest c m u b = Except.ok
        { method := m, url := res, contentType := some mediaType
          accept := some mediaType, userAgent := some c.userAgent, body := some w }) := by
  constructor
  · intro hm
    simp only [NewRequest, hres]
    rw [if_pos hm]
  · intro w hm hb
    subst hm
    subst hb
    simp [NewRequest, hres]

theorem newRequest_body_policy_witness :
    NewRequest defaultClient ("GET") tagsBasePath (some BodyValue.unencodable) =
      Except.ok
        { method := ("GET"), url := defaultBaseURL ++ tagsBasePath, contentType := none
          accept := some mediaType, userAgent := some userAgentDefault, body := none } ∧
    NewRequest defaultClient ("POST") tagsBasePath (some (BodyValue.encodable ("x"))) =
      Except.ok
        { method := ("POST"), url := defaultBaseURL ++ tagsBasePath
          contentType := some mediaType, accept := some mediaType
          userAgent := some userAgentDefault, body := some ("x") } :=
  ⟨(newRequest_body_policy defaultClient ("GET") tagsBasePath
      (defaultBaseURL ++ tagsBasePath) (some BodyValue.unencodable) rfl).1 (Or.inl rfl),
   (newRequest_body_policy defaultClient ("POST") tagsBasePath
      (defaultBaseURL ++ tagsBasePath) (some (BodyValue.encodable ("x"))) rfl).2
      ("x") rfl rfl⟩

/-- Claim C10.  The tag service operations Get, Create and Delete as
implemented return nil for every result component — no request is
built, no transport call is made, no error reported — while List, once
the options encode, the request builds and the rate-limit guard passes,
performs a real request through the pipeline (the transport is
contacted). -/
theorem tagsService_only_list_contacts :
    (∀ name, TagsServiceOp.Get name =
      { tag := none, envelope := none, error := none, contactedTransport := false }) ∧
    (∀ s, TagsServiceOp.Create s =
      { tag := none, envelope := none, error := none, contactedTransport := false }) ∧
    (∀ s, TagsServiceOp.Delete s =
      { envelope := none, error := none, contactedTransport := false }) ∧
    (∀ c cached now opt tresp path req,
      addOptions tagsBasePath opt = Except.ok path →
      NewRequest c ("GET") path none = Except.ok req →
      checkRateLimitBeforeDo cached now req = none →
      (TagsServiceOp.List c cached now opt tresp).contactedTransport = true) := by
  refine ⟨fun _ => rfl, fun _ => rfl, fun _ => rfl, ?_⟩
  intro c cached now opt tresp path req hopt hreq hpass
  rcases hc : (checkResponse tresp).1 with _ | e <;>
    simp [TagsServiceOp.List, hopt, hreq, Do, hpass, hc]

theorem tagsService_only_list_contacts_witness :
    TagsServiceOp.Get ("x") =
      { tag := none, envelope := none, error := none, contactedTransport := false } ∧
    (TagsServiceOp.List defaultClient Rate.zero 0 none
      { status := 200, headers := emptyHeaders, body := Body.content ("")
        request := none }).contactedTransport = true :=
  ⟨tagsService_only_list_contacts.1 ("x"),
   tagsService_only_list_contacts.2.2.2 defaultClient Rate.zero 0 none
     { status := 200, headers := emptyHeaders, body := Body.content ("")
       request := none }
     tagsBasePath
     { method := ("GET"), url := defaultBaseURL ++ tagsBasePath, contentType := none
       accept := some mediaType, userAgent := some userAgentDefault, body := none }
     rfl rfl (by decide)⟩
